import Mathlib

/-!
Verification of the drone flight data generator
(`drone_flight_generator.py`): a shallow embedding of the geodetic
offset converter, the profile evaluators (speed, altitude, gimbal,
zoom), the four path generators (circle, straight, triangle, hover)
and the telemetry synthesizer `generate_entries`, together with
theorems settling the specification's claims.

Modelling conventions:
* Python floats are idealized as real numbers `ℝ`; `math.sin`, `math.cos`,
  `math.atan2` and `math.pi` become `Real.sin`, `Real.cos`, `Complex.arg`
  and `Real.pi`.
* Python's float modulo `x % y` (sign of the divisor, here always `360`)
  is `fmod x y = x - y * ⌊x / y⌋`.
* Python's `round(x, d)` is idealized as decimal rounding `roundTo d`
  over `ℝ` (Python breaks exact ties to even on binary floats; the
  idealization agrees with it off ties and is monotone like it).
* The wall-clock read `datetime.datetime.now()` becomes an explicit
  `start_time : ℝ` parameter (seconds); `start_time + timedelta(seconds=t)`
  becomes `start_time + t`.
* The dictionary lookup `PATHS[cfg.path_type]`, which raises `KeyError`
  for an unknown key, is modelled as an `Option`-valued lookup returning
  `none` for an unknown path type, making `generate_entries` `Option`-valued.
-/

namespace DroneFlight

noncomputable section

/-- `math.radians`: degrees to radians. -/
def radians (x : ℝ) : ℝ := x * Real.pi / 180

/-- `math.degrees`: radians to degrees. -/
def degrees (x : ℝ) : ℝ := x * 180 / Real.pi

/-- `math.atan2 y x`, i.e. the argument of the complex number `x + y*i`,
in `(-π, π]`. -/
def atan2 (y x : ℝ) : ℝ := Complex.arg ⟨x, y⟩

/-- Python float modulo `x % y` (for `y > 0`: result in `[0, y)`). -/
def fmod (x y : ℝ) : ℝ := x - y * ⌊x / y⌋

/-- Python `round(x, d)` idealized over `ℝ` as rounding to `d` decimal
places. -/
def roundTo (d : ℕ) (x : ℝ) : ℝ := ((round (x * 10 ^ d) : ℤ) : ℝ) / 10 ^ d

/-- `M_PER_DEG_LAT = 111_320.0`: metres in 1° latitude. -/
def M_PER_DEG_LAT : ℝ := 111320

/-- `meters_to_latlon_offset(d_m, angle_deg, lat_c)`: convert a polar
offset (distance, bearing) at latitude `lat_c` to Δlat/Δlon degrees. -/
def meters_to_latlon_offset (d_m angle_deg lat_c : ℝ) : ℝ × ℝ :=
  let m_per_deg_lon := M_PER_DEG_LAT * Real.cos (radians lat_c)
  let angle_rad := radians angle_deg
  ((d_m * Real.cos angle_rad) / M_PER_DEG_LAT,
   (d_m * Real.sin angle_rad) / m_per_deg_lon)

/-- `SpeedProfile` dataclass. -/
structure SpeedProfile where
  base : ℝ := 5
  sine_amp : ℝ := 0
  sine_period : ℝ := 30

/-- `SpeedProfile.speed(t)`. -/
def SpeedProfile.speed (p : SpeedProfile) (t : ℝ) : ℝ :=
  p.base + p.sine_amp * Real.sin (2 * Real.pi * t / p.sine_period)

/-- `AltitudeProfile` dataclass. -/
structure AltitudeProfile where
  takeoff_elevation : ℝ := 0
  takeoff_altitude : ℝ := 500
  climb_rate : ℝ := 2
  sine_amp : ℝ := 0
  sine_period : ℝ := 60

/-- `AltitudeProfile.height(t)`: climb linearly from the takeoff elevation
to the target altitude, clamp, then add the optional sine ripple
(`if self.sine_amp:` is Python truthiness, i.e. `sine_amp ≠ 0`). -/
def AltitudeProfile.height (p : AltitudeProfile) (t : ℝ) : ℝ :=
  if t ≤ 0 then p.takeoff_elevation
  else
    let altitude_diff := p.takeoff_altitude - p.takeoff_elevation
    let climb_time := if p.climb_rate > 0 then altitude_diff / p.climb_rate else 0
    let h := if t ≤ climb_time then p.takeoff_elevation + p.climb_rate * t
             else p.takeoff_altitude
    if p.sine_amp ≠ 0 then h + p.sine_amp * Real.sin (2 * Real.pi * t / p.sine_period)
    else h

/-- `GimbalProfile` dataclass. -/
structure GimbalProfile where
  yaw_mode : String := "static"
  yaw_static : ℝ := 0
  yaw_amp : ℝ := 90
  yaw_period : ℝ := 60
  yaw_rotation_rate : ℝ := 1
  pitch_mode : String := "static"
  pitch_static : ℝ := -30
  pitch_mid : ℝ := -30
  pitch_amp : ℝ := 60
  pitch_period : ℝ := 60
  roll_amp : ℝ := 5
  roll_period : ℝ := 40

/-- `GimbalProfile.yaw(heading, t)`. -/
def GimbalProfile.yaw (g : GimbalProfile) (heading t : ℝ) : ℝ :=
  if g.yaw_mode = "static" then fmod (heading + g.yaw_static) 360
  else if g.yaw_mode = "oscillating" then
    fmod (heading + g.yaw_amp * Real.sin (2 * Real.pi * t / g.yaw_period)) 360
  else if g.yaw_mode = "rotating" then
    fmod (heading + g.yaw_rotation_rate * t) 360
  else fmod heading 360

/-- `GimbalProfile.pitch(t)`. -/
def GimbalProfile.pitch (g : GimbalProfile) (t : ℝ) : ℝ :=
  if g.pitch_mode = "static" then g.pitch_static
  else if g.pitch_mode = "oscillating" then
    g.pitch_mid + (g.pitch_amp / 2) * Real.sin (2 * Real.pi * t / g.pitch_period)
  else g.pitch_static

/-- `GimbalProfile.roll(t)`. -/
def GimbalProfile.roll (g : GimbalProfile) (t : ℝ) : ℝ :=
  g.roll_amp * Real.sin (2 * Real.pi * t / g.roll_period)

/-- `ZoomProfile` dataclass. -/
structure ZoomProfile where
  mode : String := "static"
  static_value : ℝ := 1
  min_value : ℝ := 1
  max_value : ℝ := 3
  period : ℝ := 60

/-- `ZoomProfile.zoom_factor(t)`. -/
def ZoomProfile.zoom_factor (z : ZoomProfile) (t : ℝ) : ℝ :=
  if z.mode = "static" then z.static_value
  else if z.mode = "oscillating" then
    let range_val := z.max_value - z.min_value
    z.min_value + (range_val / 2) * (1 + Real.sin (2 * Real.pi * t / z.period))
  else z.static_value

/-- `FlightConfig` dataclass (`duration` seconds, `hz` samples/second). -/
structure FlightConfig where
  path_type : String := "circle"
  duration : ℕ := 120
  hz : ℕ := 1
  center_lat : ℝ := 45.53946
  center_lon : ℝ := -122.76394
  radius_m : ℝ := 60
  tri_edge_m : ℝ := 120
  start_lat : ℝ := 45.53946
  start_lon : ℝ := -122.76394
  bearing_deg : ℝ := 90
  altitude : AltitudeProfile := {}
  speed : SpeedProfile := {}
  gimbal : GimbalProfile := {}
  zoom : ZoomProfile := {}

/-- `FlightConfig.total_pts()` = `duration * hz`. -/
def FlightConfig.total_pts (cfg : FlightConfig) : ℕ := cfg.duration * cfg.hz

/-- Loop body of `gen_circle` at index `i`. -/
def circleWaypoint (cfg : FlightConfig) (i : ℕ) : ℝ × ℝ × ℝ :=
  let frac := (i : ℝ) / (cfg.total_pts : ℝ)
  let ang := frac * 360
  let o := meters_to_latlon_offset cfg.radius_m ang cfg.center_lat
  (cfg.center_lat + o.1, cfg.center_lon + o.2, fmod (ang + 90) 360)

/-- `gen_circle(cfg)`. -/
def gen_circle (cfg : FlightConfig) : List (ℝ × ℝ × ℝ) :=
  (List.range cfg.total_pts).map (circleWaypoint cfg)

/-- Loop body of `gen_straight` at index `i`. -/
def straightWaypoint (cfg : FlightConfig) (i : ℕ) : ℝ × ℝ × ℝ :=
  let total_dist := cfg.speed.base * (cfg.duration : ℝ)
  let step := total_dist / (cfg.total_pts : ℝ)
  let d := step * (i : ℝ)
  let o := meters_to_latlon_offset d cfg.bearing_deg cfg.start_lat
  (cfg.start_lat + o.1, cfg.start_lon + o.2, fmod cfg.bearing_deg 360)

/-- `gen_straight(cfg)`. -/
def gen_straight (cfg : FlightConfig) : List (ℝ × ℝ × ℝ) :=
  (List.range cfg.total_pts).map (straightWaypoint cfg)

/-- `gen_hover(cfg)`: the start waypoint repeated `total_pts` times. -/
def gen_hover (cfg : FlightConfig) : List (ℝ × ℝ × ℝ) :=
  List.replicate cfg.total_pts (cfg.start_lat, cfg.start_lon, fmod cfg.bearing_deg 360)

/-- Triangle vertex `k` (for `k = 0, 1, 2`): at bearing `90 + k*120` and
distance `tri_edge_m / sqrt 3` from the center. -/
def triVert (cfg : FlightConfig) (k : ℕ) : ℝ × ℝ :=
  let ang : ℝ := 90 + (k : ℝ) * 120
  let o := meters_to_latlon_offset (cfg.tri_edge_m / Real.sqrt 3) ang cfg.center_lat
  (cfg.center_lat + o.1, cfg.center_lon + o.2)

/-- `pts_per_edge = cfg.total_pts() // 3 or 1` (Python `or`: `0` is falsy). -/
def trianglePpe (cfg : FlightConfig) : ℕ :=
  let p := cfg.total_pts / 3
  if p = 0 then 1 else p

/-- Inner-loop body of `gen_triangle`: point `j` of edge `e`. -/
def triEdgePoint (cfg : FlightConfig) (ppe : ℕ) (e j : ℕ) : ℝ × ℝ × ℝ :=
  let v1 := triVert cfg e
  let v2 := triVert cfg ((e + 1) % 3)
  let t := (j : ℝ) / (ppe : ℝ)
  let lat := v1.1 + t * (v2.1 - v1.1)
  let lon := v1.2 + t * (v2.2 - v1.2)
  let heading := fmod (degrees (atan2 (v2.2 - v1.2) (v2.1 - v1.1))) 360
  (lat, lon, heading)

/-- One edge of the triangle: `ppe` interpolated points. -/
def triEdge (cfg : FlightConfig) (ppe e : ℕ) : List (ℝ × ℝ × ℝ) :=
  (List.range ppe).map (triEdgePoint cfg ppe e)

/-- `gen_triangle(cfg)`: the three edges (the `for e in range(3)` loop
unrolled), then the `while len(out) < total_pts` padding loop, which
appends the last computed waypoint until the length reaches `total_pts`
(it never removes elements). -/
def gen_triangle (cfg : FlightConfig) : List (ℝ × ℝ × ℝ) :=
  let ppe := trianglePpe cfg
  let out := triEdge cfg ppe 0 ++ triEdge cfg ppe 1 ++ triEdge cfg ppe 2
  out ++ List.replicate (cfg.total_pts - out.length) (out.getLastD (0, 0, 0))

/-- The `PATHS` dictionary; lookup of an unknown key (Python `KeyError`)
is modelled as `none`. -/
def PATHS (s : String) : Option (FlightConfig → List (ℝ × ℝ × ℝ)) :=
  if s = "circle" then some gen_circle
  else if s = "straight" then some gen_straight
  else if s = "triangle" then some gen_triangle
  else if s = "hover" then some gen_hover
  else none

/-- One telemetry record (the `"data"` mapping of an output entry).
`current_datetime` is seconds since the epoch. -/
structure Entry where
  latitude : ℝ
  longitude : ℝ
  height : ℝ
  elevation : ℝ
  attitude_head : ℝ
  attitude_roll : ℝ
  attitude_pitch : ℝ
  gimbal_pitch : ℝ
  gimbal_roll : ℝ
  gimbal_yaw : ℝ
  zoom_factor : ℝ
  speed : ℝ
  seconds_elapsed : ℤ
  current_datetime : ℝ
  flight_distance : ℝ

/-- The all-zero record, used as a `getD` default. -/
def defaultEntry : Entry :=
  ⟨0, 0, 0, 0, 0, 0, 0, 0, 0, 0, 0, 0, 0, 0, 0⟩

/-- The record built for sample index `i` at waypoint `wp`, with the
already-updated distance accumulator `flight_dist` (`int(t)` is `⌊t⌋`
since `t ≥ 0`). -/
def mkEntry (cfg : FlightConfig) (start_time : ℝ) (i : ℕ) (wp : ℝ × ℝ × ℝ)
    (spd flight_dist : ℝ) : Entry :=
  let t := (i : ℝ) / (cfg.hz : ℝ)
  { latitude := roundTo 6 wp.1
    longitude := roundTo 6 wp.2.1
    height := roundTo 1 (cfg.altitude.height t)
    elevation := 0
    attitude_head := roundTo 1 wp.2.2
    attitude_roll := roundTo 2 (cfg.gimbal.roll t)
    attitude_pitch := 0
    gimbal_pitch := roundTo 1 (cfg.gimbal.pitch t)
    gimbal_roll := roundTo 2 (cfg.gimbal.roll t)
    gimbal_yaw := roundTo 1 (cfg.gimbal.yaw wp.2.2 t)
    zoom_factor := roundTo 2 (cfg.zoom.zoom_factor t)
    speed := roundTo 2 spd
    seconds_elapsed := ⌊t⌋
    current_datetime := start_time + t
    flight_distance := roundTo 1 flight_dist }

/-- The `for i, (lat, lon, heading) in enumerate(path_pts)` loop of
`generate_entries`, carrying the sample index `i` and the distance
accumulator `flight_dist` (updated with the unrounded speed before the
record is built). -/
def entriesLoop (cfg : FlightConfig) (start_time : ℝ) :
    ℕ → ℝ → List (ℝ × ℝ × ℝ) → List Entry
  | _, _, [] => []
  | i, flight_dist, wp :: rest =>
    let t := (i : ℝ) / (cfg.hz : ℝ)
    let spd := cfg.speed.speed t
    let flight_dist2 := flight_dist + spd / (cfg.hz : ℝ)
    mkEntry cfg start_time i wp spd flight_dist2 ::
      entriesLoop cfg start_time (i + 1) flight_dist2 rest

/-- `generate_entries(cfg)`, with the single wall-clock read
`datetime.datetime.now()` made an explicit `start_time` parameter;
`none` models the `KeyError` of an unknown path type. -/
def generate_entries (cfg : FlightConfig) (start_time : ℝ) : Option (List Entry) :=
  (PATHS cfg.path_type).map fun gen => entriesLoop cfg start_time 0 0 (gen cfg)

/-- Strip the only wall-clock-dependent field of a record, for stating
determinism up to timestamps. -/
def eraseTime (e : Entry) : Entry := { e with current_datetime := 0 }

/-! Concrete configurations used to instantiate the theorems. -/

/-- Triangle flight with `total_samples = 1` (not enough samples for three
edges). -/
def cfgTriangleTiny : FlightConfig := { path_type := "triangle", duration := 1, hz := 1 }

/-- Triangle flight with `total_samples = 4` (not divisible by 3, so the
padding loop runs). -/
def cfgTriangleW : FlightConfig := { path_type := "triangle", duration := 4, hz := 1 }

/-- One-sample hover flight. -/
def cfgHoverUnit : FlightConfig := { path_type := "hover", duration := 1, hz := 1 }

/-- Hover flight whose configured bearing (450°) is outside `[0, 360)`. -/
def cfgHoverBearing450 : FlightConfig := { path_type := "hover", bearing_deg := 450 }

/-- Straight flight whose configured bearing (450°) is outside `[0, 360)`. -/
def cfgStraightBearing450 : FlightConfig := { path_type := "straight", bearing_deg := 450 }

/-- Two-sample circle flight. -/
def cfgCircleW : FlightConfig := { path_type := "circle", duration := 2, hz := 1 }

/-- Two-sample straight flight. -/
def cfgStraightW : FlightConfig := { path_type := "straight", duration := 2, hz := 1 }

/-- Flight whose path type is not a key of `PATHS`. -/
def cfgUnknownPath : FlightConfig := { path_type := "spiral" }

/-- Altitude profile with start 0, target 500, climb rate 2, no ripple. -/
def altW : AltitudeProfile :=
  { takeoff_elevation := 0, takeoff_altitude := 500, climb_rate := 2,
    sine_amp := 0, sine_period := 60 }

/-- Oscillating zoom profile between 1.0 and 3.0. -/
def zoomOscW : ZoomProfile := { mode := "oscillating", min_value := 1, max_value := 3 }

/-- Gimbal profile with unrecognized yaw and pitch modes. -/
def gimbalUnknownW : GimbalProfile := { yaw_mode := "follow", pitch_mode := "follow" }

/-- Zoom profile with an unrecognized mode. -/
def zoomUnknownW : ZoomProfile := { mode := "follow" }

end

/-! ## Helper lemmas -/

theorem length_entriesLoop (cfg : FlightConfig) (st : ℝ) :
    ∀ (l : List (ℝ × ℝ × ℝ)) (i : ℕ) (d : ℝ),
      (entriesLoop cfg st i d l).length = l.length
  | [], _, _ => rfl
  | _ :: rest, i, d => by
    simp only [entriesLoop, List.length_cons]
    rw [length_entriesLoop cfg st rest]

theorem getD_range_map {α : Type} (f : ℕ → α) (n i : ℕ) (d : α) (h : i < n) :
    ((List.range n).map f).getD i d = f i := by
  rw [List.getD_eq_getElem _ _ (by simpa using h)]
  simp

theorem getD_replicate_lt {α : Type} (n i : ℕ) (a d : α) (h : i < n) :
    (List.replicate n a).getD i d = a := by
  rw [List.getD_eq_getElem _ _ (by simpa using h)]
  simp

theorem length_gen_circle (cfg : FlightConfig) :
    (gen_circle cfg).length = cfg.total_pts := by
  simp [gen_circle]

theorem length_gen_straight (cfg : FlightConfig) :
    (gen_straight cfg).length = cfg.total_pts := by
  simp [gen_straight]

theorem length_gen_hover (cfg : FlightConfig) :
    (gen_hover cfg).length = cfg.total_pts := by
  simp [gen_hover]

theorem length_gen_triangle (cfg : FlightConfig) :
    (gen_triangle cfg).length = max (3 * trianglePpe cfg) cfg.total_pts := by
  simp only [gen_triangle, triEdge, List.length_append, List.length_replicate,
    List.length_map, List.length_range]
  omega

theorem round_le_round_of_le {x y : ℝ} (h : x ≤ y) : round x ≤ round y := by
  rw [round_eq, round_eq]
  exact Int.floor_le_floor (by linarith)

theorem roundTo_mono (d : ℕ) {x y : ℝ} (h : x ≤ y) : roundTo d x ≤ roundTo d y := by
  unfold roundTo
  have h10 : (0 : ℝ) < 10 ^ d := by positivity
  have hr : ((round (x * 10 ^ d) : ℤ) : ℝ) ≤ ((round (y * 10 ^ d) : ℤ) : ℝ) := by
    exact_mod_cast round_le_round_of_le (mul_le_mul_of_nonneg_right h h10.le)
  exact (div_le_div_iff_of_pos_right h10).mpr hr

theorem entriesLoop_flight_distance (cfg : FlightConfig) (st : ℝ) :
    ∀ (l : List (ℝ × ℝ × ℝ)) (i : ℕ) (d0 : ℝ) (k : ℕ), k < l.length →
      ((entriesLoop cfg st i d0 l).getD k defaultEntry).flight_distance =
        roundTo 1 (d0 + ∑ j ∈ Finset.range (k + 1),
          cfg.speed.speed (((i + j : ℕ) : ℝ) / (cfg.hz : ℝ)) / (cfg.hz : ℝ)) := by
  intro l
  induction l with
  | nil => intro i d0 k hk; simp at hk
  | cons wp rest ih =>
    intro i d0 k hk
    cases k with
    | zero =>
      simp [entriesLoop, mkEntry, Finset.sum_range_one]
    | succ k =>
      have hk' : k < rest.length := by
        simp only [List.length_cons] at hk
        omega
      simp only [entriesLoop, List.getD_cons_succ]
      rw [ih (i + 1) _ k hk']
      congr 1
      conv_rhs => rw [Finset.sum_range_succ']
      have hfun : (fun j : ℕ =>
            cfg.speed.speed (((i + 1 + j : ℕ) : ℝ) / (cfg.hz : ℝ)) / (cfg.hz : ℝ)) =
          (fun j : ℕ =>
            cfg.speed.speed (((i + (j + 1) : ℕ) : ℝ) / (cfg.hz : ℝ)) / (cfg.hz : ℝ)) := by
        funext j
        have hnat : i + 1 + j = i + (j + 1) := by omega
        rw [hnat]
      rw [hfun]
      simp only [Nat.add_zero]
      ring

theorem entriesLoop_map_eraseTime (cfg : FlightConfig) (st st' : ℝ) :
    ∀ (l : List (ℝ × ℝ × ℝ)) (i : ℕ) (d : ℝ),
      (entriesLoop cfg st i d l).map eraseTime =
        (entriesLoop cfg st' i d l).map eraseTime
  | [], _, _ => rfl
  | wp :: rest, i, d => by
    simp only [entriesLoop, List.map_cons]
    refine congrArg₂ _ rfl ?_
    exact entriesLoop_map_eraseTime cfg st st' rest (i + 1) _

theorem fmod_450_360 : fmod 450 360 = 90 := by
  unfold fmod
  have hf : ⌊(450 : ℝ) / 360⌋ = 1 := by
    rw [Int.floor_eq_iff]
    norm_num
  rw [hf]
  norm_num

/-! ## Claims -/

/-- C2 (amended): for every `FlightConfig` with the hover path, every
waypoint is identical — its latitude is the configured start latitude, its
longitude the configured start longitude, and its heading the configured
bearing reduced modulo 360 (the code normalizes the bearing with `% 360`,
so for bearings outside `[0, 360)` the heading is not the raw configured
bearing). -/
theorem gen_hover_waypoint (cfg : FlightConfig) (i : ℕ) (h : i < cfg.total_pts) :
    (gen_hover cfg).getD i (0, 0, 0) =
      (cfg.start_lat, cfg.start_lon, fmod cfg.bearing_deg 360) := by
  unfold gen_hover
  exact getD_replicate_lt _ _ _ _ h

/-- C2 witness: the single waypoint of a one-sample hover flight is the
configured start position with the normalized bearing. -/
theorem gen_hover_waypoint_witness :
    0 < cfgHoverUnit.total_pts ∧
      (gen_hover cfgHoverUnit).getD 0 (0, 0, 0) =
        (cfgHoverUnit.start_lat, cfgHoverUnit.start_lon,
          fmod cfgHoverUnit.bearing_deg 360) :=
  ⟨by decide, gen_hover_waypoint cfgHoverUnit 0 (by decide)⟩

/-- C2 counterexample: with configured bearing 450°, the hover waypoint's
heading is `450 % 360 = 90`, not the configured bearing 450 — the claim
"heading equals the configured bearing" fails as stated. -/
theorem gen_hover_heading_cex :
    ((gen_hover cfgHoverBearing450).getD 0 (0, 0, 0)).2.2 ≠
      cfgHoverBearing450.bearing_deg := by
  have h : (gen_hover cfgHoverBearing450).getD 0 (0, 0, 0) =
      (cfgHoverBearing450.start_lat, cfgHoverBearing450.start_lon,
        fmod cfgHoverBearing450.bearing_deg 360) := by
    unfold gen_hover
    exact getD_replicate_lt _ _ _ _ (by decide)
  rw [h]
  have hb : cfgHoverBearing450.bearing_deg = 450 := rfl
  show fmod cfgHoverBearing450.bearing_deg 360 ≠ cfgHoverBearing450.bearing_deg
  rw [hb, fmod_450_360]
  norm_num

/-- C3: for an altitude profile with zero ripple amplitude, `height` is the
piecewise function: the takeoff elevation for `t ≤ 0`; the linear climb
`elevation + climb_rate * t` for `0 < t ≤ climb_time` where `climb_time`
is `(target - start) / climb_rate` when the climb rate is positive and `0`
otherwise; and the target altitude for `t` past `climb_time`. -/
theorem altitude_height_piecewise (p : AltitudeProfile) (hamp : p.sine_amp = 0) :
    (∀ t : ℝ, t ≤ 0 → p.height t = p.takeoff_elevation) ∧
    (∀ t : ℝ, 0 < t →
      t ≤ (if 0 < p.climb_rate then
        (p.takeoff_altitude - p.takeoff_elevation) / p.climb_rate else 0) →
      p.height t = p.takeoff_elevation + p.climb_rate * t) ∧
    (∀ t : ℝ, 0 < t →
      (if 0 < p.climb_rate then
        (p.takeoff_altitude - p.takeoff_elevation) / p.climb_rate else 0) < t →
      p.height t = p.takeoff_altitude) := by
  have hbase : ∀ t : ℝ, p.height t =
      if t ≤ 0 then p.takeoff_elevation
      else if t ≤ (if 0 < p.climb_rate then
          (p.takeoff_altitude - p.takeoff_elevation) / p.climb_rate else 0) then
        p.takeoff_elevation + p.climb_rate * t
      else p.takeoff_altitude := by
    intro t
    simp only [AltitudeProfile.height, hamp, ne_eq, not_true_eq_false, if_false]
  refine ⟨fun t ht => ?_, fun t ht hle => ?_, fun t ht hgt => ?_⟩
  · rw [hbase, if_pos ht]
  · rw [hbase, if_neg (not_le.mpr ht), if_pos hle]
  · rw [hbase, if_neg (not_le.mpr ht), if_neg (not_le.mpr hgt)]

/-- C3 witness: with start 0, target 500, climb rate 2 and no ripple,
`height 0 = 0`, `height 250 = 500` and `height 300 = 500`. -/
theorem altitude_height_witness :
    altW.height 0 = 0 ∧ altW.height 250 = 500 ∧ altW.height 300 = 500 := by
  obtain ⟨h1, h2, h3⟩ := altitude_height_piecewise altW rfl
  refine ⟨?_, ?_, ?_⟩
  · rw [h1 0 le_rfl]
    rfl
  · rw [h2 250 (by norm_num) (by norm_num [altW])]
    norm_num [altW]
  · rw [h3 300 (by norm_num) (by norm_num [altW])]
    rfl

/-- C4: in oscillating mode, the zoom factor is
`min + ((max - min)/2) * (1 + sin (2*pi*t/period))` for every `t`; whenever
`min ≤ max` it stays in `[min, max]`, and at `t = 0` it equals
`(min + max)/2`. -/
theorem zoom_oscillating_spec (z : ZoomProfile) (hm : z.mode = "oscillating") :
    (∀ t : ℝ, z.zoom_factor t =
      z.min_value + (z.max_value - z.min_value) / 2 *
        (1 + Real.sin (2 * Real.pi * t / z.period))) ∧
    (z.min_value ≤ z.max_value →
      ∀ t : ℝ, z.min_value ≤ z.zoom_factor t ∧ z.zoom_factor t ≤ z.max_value) ∧
    z.zoom_factor 0 = (z.min_value + z.max_value) / 2 := by
  have hform : ∀ t : ℝ, z.zoom_factor t =
      z.min_value + (z.max_value - z.min_value) / 2 *
        (1 + Real.sin (2 * Real.pi * t / z.period)) := by
    intro t
    unfold ZoomProfile.zoom_factor
    rw [hm]
    rw [if_neg (by decide : ¬("oscillating" = "static")), if_pos rfl]
  refine ⟨hform, fun hle t => ?_, ?_⟩
  · rw [hform t]
    have hs1 : -1 ≤ Real.sin (2 * Real.pi * t / z.period) := Real.neg_one_le_sin _
    have hs2 : Real.sin (2 * Real.pi * t / z.period) ≤ 1 := Real.sin_le_one _
    constructor
    · nlinarith
    · nlinarith
  · rw [hform 0]
    simp
    ring

/-- C4 witness: with min 1 and max 3, the zoom factor at `t = 0` is 2 and
lies in `[1, 3]`. -/
theorem zoom_oscillating_witness :
    zoomOscW.zoom_factor 0 = (zoomOscW.min_value + zoomOscW.max_value) / 2 ∧
      zoomOscW.min_value ≤ zoomOscW.zoom_factor 0 ∧
      zoomOscW.zoom_factor 0 ≤ zoomOscW.max_value :=
  ⟨(zoom_oscillating_spec zoomOscW rfl).2.2,
   ((zoom_oscillating_spec zoomOscW rfl).2.1 (by norm_num [zoomOscW]) 0).1,
   ((zoom_oscillating_spec zoomOscW rfl).2.1 (by norm_num [zoomOscW]) 0).2⟩

/-- C8: unrecognized profile mode strings degrade without error: an unknown
yaw mode yields `heading % 360`, an unknown pitch mode yields the static
pitch value, and an unknown zoom mode yields the static zoom value. -/
theorem unknown_mode_fallback (g : GimbalProfile) (z : ZoomProfile) (heading t : ℝ)
    (hy : g.yaw_mode ≠ "static" ∧ g.yaw_mode ≠ "oscillating" ∧ g.yaw_mode ≠ "rotating")
    (hp : g.pitch_mode ≠ "static" ∧ g.pitch_mode ≠ "oscillating")
    (hzm : z.mode ≠ "static" ∧ z.mode ≠ "oscillating") :
    g.yaw heading t = fmod heading 360 ∧
      g.pitch t = g.pitch_static ∧
      z.zoom_factor t = z.static_value := by
  refine ⟨?_, ?_, ?_⟩
  · unfold GimbalProfile.yaw
    rw [if_neg hy.1, if_neg hy.2.1, if_neg hy.2.2]
  · unfold GimbalProfile.pitch
    rw [if_neg hp.1, if_neg hp.2]
  · unfold ZoomProfile.zoom_factor
    rw [if_neg hzm.1, if_neg hzm.2]

/-- C8 witness: with the unrecognized mode string `"follow"`, yaw falls back
to `heading % 360`, pitch to the static pitch, and zoom to the static
value. -/
theorem unknown_mode_fallback_witness :
    gimbalUnknownW.yaw 10 0 = fmod 10 360 ∧
      gimbalUnknownW.pitch 0 = gimbalUnknownW.pitch_static ∧
      zoomUnknownW.zoom_factor 0 = zoomUnknownW.static_value :=
  unknown_mode_fallback gimbalUnknownW zoomUnknownW 10 0
    ⟨by decide, by decide, by decide⟩ ⟨by decide, by decide⟩ ⟨by decide, by decide⟩

/-- C9: generation is deterministic — with the wall-clock start time made
an explicit parameter, the output for a fixed configuration does not
depend on it except through the `current_datetime` field: erasing that
field gives identical sequences for any two injected start times (and in
particular two calls with the same configuration and the same injected
start time produce identical output). -/
theorem generate_entries_deterministic (cfg : FlightConfig) (st st' : ℝ) :
    (generate_entries cfg st).map (List.map eraseTime) =
      (generate_entries cfg st').map (List.map eraseTime) := by
  unfold generate_entries
  cases PATHS cfg.path_type with
  | none => rfl
  | some gen =>
    simp only [Option.map_some']
    exact congrArg some (entriesLoop_map_eraseTime cfg st st' (gen cfg) 0 0)

/-- C10: for a path type outside `{circle, straight, triangle, hover}`,
`generate_entries` fails at the `PATHS` dictionary lookup before producing
any record (the Python `KeyError`, modelled as `none`): the silent-fallback
policy for unknown profile modes does not extend to unknown path types. -/
theorem unknown_path_none (cfg : FlightConfig) (st : ℝ)
    (h : cfg.path_type ≠ "circle" ∧ cfg.path_type ≠ "straight" ∧
      cfg.path_type ≠ "triangle" ∧ cfg.path_type ≠ "hover") :
    generate_entries cfg st = none := by
  unfold generate_entries PATHS
  rw [if_neg h.1, if_neg h.2.1, if_neg h.2.2.1, if_neg h.2.2.2]
  rfl

/-- C10 witness: the unknown path type `"spiral"` produces no records. -/
theorem unknown_path_none_witness :
    generate_entries cfgUnknownPath 0 = none :=
  unknown_path_none cfgUnknownPath 0 ⟨by decide, by decide, by decide, by decide⟩

/-- C1 (amended): for every `FlightConfig` with positive duration and
sample rate and a path type in `{circle, straight, triangle, hover}`,
`generate_entries` returns exactly `duration * sample_rate` records,
provided in the triangle case that `total_samples ≥ 3`: the triangle
generator pads any remainder samples (from the integer division by 3) by
repeating the final waypoint, but for `total_samples < 3` it emits one
point per edge (`pts_per_edge = total_samples // 3 or 1` is 1) and the
padding loop never removes elements, so 3 records come back. -/
theorem generate_entries_length (cfg : FlightConfig) (st : ℝ)
    (hd : 0 < cfg.duration) (hh : 0 < cfg.hz)
    (hp : cfg.path_type = "circle" ∨ cfg.path_type = "straight" ∨
      cfg.path_type = "triangle" ∨ cfg.path_type = "hover")
    (htri : cfg.path_type = "triangle" → 3 ≤ cfg.total_pts) :
    ((generate_entries cfg st).getD []).length = cfg.duration * cfg.hz := by
  have hmain : ∀ gen, PATHS cfg.path_type = some gen →
      ((generate_entries cfg st).getD []).length = (gen cfg).length := by
    intro gen hg
    simp [generate_entries, hg, length_entriesLoop]
  rcases hp with h | h | h | h
  · rw [hmain gen_circle (by rw [h]; rfl), length_gen_circle]
    rfl
  · rw [hmain gen_straight (by rw [h]; rfl), length_gen_straight]
    rfl
  · rw [hmain gen_triangle (by rw [h]; rfl), length_gen_triangle]
    have h3 := htri h
    have hne : cfg.total_pts / 3 ≠ 0 := by omega
    have hppe : trianglePpe cfg = cfg.total_pts / 3 := by
      unfold trianglePpe
      simp [hne]
    rw [hppe, max_eq_right (by omega)]
    rfl
  · rw [hmain gen_hover (by rw [h]; rfl), length_gen_hover]
    rfl

/-- C1 witness: a triangle flight of 4 samples (not divisible by 3, so the
padding loop fires) yields exactly `4 = duration * sample_rate` records. -/
theorem generate_entries_length_witness :
    0 < cfgTriangleW.duration ∧ 0 < cfgTriangleW.hz ∧
      ((generate_entries cfgTriangleW 0).getD []).length =
        cfgTriangleW.duration * cfgTriangleW.hz :=
  ⟨by decide, by decide,
    generate_entries_length cfgTriangleW 0 (by decide) (by decide)
      (Or.inr (Or.inr (Or.inl rfl))) (fun _ => by decide)⟩

/-- C1 counterexample: the triangle flight with `duration = 1, hz = 1`
(positive duration and sample rate, `total_samples = 1`) returns 3 records,
not `duration * sample_rate = 1`: the claim fails as stated. -/
theorem generate_entries_length_cex :
    ((generate_entries cfgTriangleTiny 0).getD []).length ≠
      cfgTriangleTiny.duration * cfgTriangleTiny.hz := by
  have h1 : (generate_entries cfgTriangleTiny 0).getD [] =
      entriesLoop cfgTriangleTiny 0 0 0 (gen_triangle cfgTriangleTiny) := rfl
  rw [h1, length_entriesLoop, length_gen_triangle]
  decide

/-- C5: when the speed profile is non-negative at every sample time, the
`flight_distance` field is monotonically non-decreasing in the sample
index; moreover the `flight_distance` of record `k` is the rounding (to one
decimal) of the running sum of the unrounded per-sample speeds divided by
the sample rate — the accumulation uses the exact speed values, not the
rounded `speed` field of the records. -/
theorem flight_distance_monotone (cfg : FlightConfig) (st : ℝ)
    (hspd : ∀ i : ℕ, 0 ≤ cfg.speed.speed ((i : ℝ) / (cfg.hz : ℝ))) :
    (∀ k k' : ℕ, k ≤ k' → k' < ((generate_entries cfg st).getD []).length →
      (((generate_entries cfg st).getD []).getD k defaultEntry).flight_distance ≤
        (((generate_entries cfg st).getD []).getD k' defaultEntry).flight_distance) ∧
    (∀ k : ℕ, k < ((generate_entries cfg st).getD []).length →
      (((generate_entries cfg st).getD []).getD k defaultEntry).flight_distance =
        roundTo 1 (∑ j ∈ Finset.range (k + 1),
          cfg.speed.speed ((j : ℝ) / (cfg.hz : ℝ)) / (cfg.hz : ℝ))) := by
  cases hP : PATHS cfg.path_type with
  | none =>
    simp [generate_entries, hP]
  | some gen =>
    have hes : (generate_entries cfg st).getD [] =
        entriesLoop cfg st 0 0 (gen cfg) := by
      simp [generate_entries, hP]
    have hlen := length_entriesLoop cfg st (gen cfg) 0 0
    have hform : ∀ k : ℕ, k < ((generate_entries cfg st).getD []).length →
        (((generate_entries cfg st).getD []).getD k defaultEntry).flight_distance =
          roundTo 1 (∑ j ∈ Finset.range (k + 1),
            cfg.speed.speed ((j : ℝ) / (cfg.hz : ℝ)) / (cfg.hz : ℝ)) := by
      intro k hk
      rw [hes] at hk ⊢
      rw [hlen] at hk
      rw [entriesLoop_flight_distance cfg st (gen cfg) 0 0 k hk]
      simp only [Nat.zero_add, zero_add]
    refine ⟨fun k k' hkk hk' => ?_, hform⟩
    rw [hform k (lt_of_le_of_lt hkk hk'), hform k' hk']
    apply roundTo_mono
    apply Finset.sum_le_sum_of_subset_of_nonneg
    · exact Finset.range_subset.mpr (by omega)
    · intro j hj hj2
      exact div_nonneg (hspd j) (Nat.cast_nonneg _)

/-- C5 witness: on a one-sample hover flight with the default constant
speed 5, record 0's `flight_distance` equals the rounded one-term running
sum, and the monotonicity instance at index 0 holds. -/
theorem flight_distance_monotone_witness :
    (((generate_entries cfgHoverUnit 0).getD []).getD 0 defaultEntry).flight_distance ≤
      (((generate_entries cfgHoverUnit 0).getD []).getD 0 defaultEntry).flight_distance ∧
    (((generate_entries cfgHoverUnit 0).getD []).getD 0 defaultEntry).flight_distance =
      roundTo 1 (∑ j ∈ Finset.range (0 + 1),
        cfgHoverUnit.speed.speed ((j : ℝ) / (cfgHoverUnit.hz : ℝ)) /
          (cfgHoverUnit.hz : ℝ)) := by
  have h := flight_distance_monotone cfgHoverUnit 0
    (by intro i; norm_num [SpeedProfile.speed, cfgHoverUnit])
  have hes : (generate_entries cfgHoverUnit 0).getD [] =
      entriesLoop cfgHoverUnit 0 0 0 (gen_hover cfgHoverUnit) := rfl
  have hlen : ((generate_entries cfgHoverUnit 0).getD []).length = 1 := by
    rw [hes, length_entriesLoop, length_gen_hover]
    rfl
  exact ⟨h.1 0 0 le_rfl (by omega), h.2 0 (by omega)⟩

/-- C6: waypoint `i` of the circle path lies at bearing
`(i / total_samples) * 360` degrees from the center, offset by
`radius * cos(bearing_rad) / 111320` in latitude and
`radius * sin(bearing_rad) / (111320 * cos(center_lat_rad))` in longitude,
with heading `(bearing + 90) mod 360`. -/
theorem gen_circle_waypoint (cfg : FlightConfig) (i : ℕ) (h : i < cfg.total_pts) :
    (gen_circle cfg).getD i (0, 0, 0) =
      (cfg.center_lat + cfg.radius_m *
          Real.cos (radians ((i : ℝ) / (cfg.total_pts : ℝ) * 360)) / 111320,
       cfg.center_lon + cfg.radius_m *
          Real.sin (radians ((i : ℝ) / (cfg.total_pts : ℝ) * 360)) /
            (111320 * Real.cos (radians cfg.center_lat)),
       fmod ((i : ℝ) / (cfg.total_pts : ℝ) * 360 + 90) 360) := by
  unfold gen_circle
  rw [getD_range_map _ _ _ _ h]
  unfold circleWaypoint meters_to_latlon_offset M_PER_DEG_LAT
  rfl

/-- C6 witness: the first waypoint of a two-sample circle flight matches
the closed-form position and heading. -/
theorem gen_circle_waypoint_witness :
    0 < cfgCircleW.total_pts ∧
      (gen_circle cfgCircleW).getD 0 (0, 0, 0) =
        (cfgCircleW.center_lat + cfgCircleW.radius_m *
            Real.cos (radians (((0 : ℕ) : ℝ) / (cfgCircleW.total_pts : ℝ) * 360)) / 111320,
         cfgCircleW.center_lon + cfgCircleW.radius_m *
            Real.sin (radians (((0 : ℕ) : ℝ) / (cfgCircleW.total_pts : ℝ) * 360)) /
              (111320 * Real.cos (radians cfgCircleW.center_lat)),
         fmod (((0 : ℕ) : ℝ) / (cfgCircleW.total_pts : ℝ) * 360 + 90) 360) :=
  ⟨by decide, gen_circle_waypoint cfgCircleW 0 (by decide)⟩

/-- C7 (amended): for the straight path, the total distance is
`base_speed * duration` (speed modulation deliberately ignored), waypoint
`i` lies at distance `i * (total_distance / total_samples)` from the start
along the configured bearing, and every waypoint's heading is constant and
equal to the configured bearing reduced modulo 360 (the code normalizes
the bearing with `% 360`, so for bearings outside `[0, 360)` the heading
is not the raw configured bearing). -/
theorem gen_straight_waypoint (cfg : FlightConfig) (i : ℕ) (h : i < cfg.total_pts) :
    (gen_straight cfg).getD i (0, 0, 0) =
      (cfg.start_lat + cfg.speed.base * (cfg.duration : ℝ) / (cfg.total_pts : ℝ) *
          (i : ℝ) * Real.cos (radians cfg.bearing_deg) / 111320,
       cfg.start_lon + cfg.speed.base * (cfg.duration : ℝ) / (cfg.total_pts : ℝ) *
          (i : ℝ) * Real.sin (radians cfg.bearing_deg) /
            (111320 * Real.cos (radians cfg.start_lat)),
       fmod cfg.bearing_deg 360) := by
  unfold gen_straight
  rw [getD_range_map _ _ _ _ h]
  unfold straightWaypoint meters_to_latlon_offset M_PER_DEG_LAT
  rfl

/-- C7 witness: the second waypoint of a two-sample straight flight matches
the closed-form position (one step of `base_speed * duration / total`
meters along the bearing) and normalized heading. -/
theorem gen_straight_waypoint_witness :
    1 < cfgStraightW.total_pts ∧
      (gen_straight cfgStraightW).getD 1 (0, 0, 0) =
        (cfgStraightW.start_lat + cfgStraightW.speed.base * (cfgStraightW.duration : ℝ) /
            (cfgStraightW.total_pts : ℝ) * ((1 : ℕ) : ℝ) *
            Real.cos (radians cfgStraightW.bearing_deg) / 111320,
         cfgStraightW.start_lon + cfgStraightW.speed.base * (cfgStraightW.duration : ℝ) /
            (cfgStraightW.total_pts : ℝ) * ((1 : ℕ) : ℝ) *
            Real.sin (radians cfgStraightW.bearing_deg) /
              (111320 * Real.cos (radians cfgStraightW.start_lat)),
         fmod cfgStraightW.bearing_deg 360) :=
  ⟨by decide, gen_straight_waypoint cfgStraightW 1 (by decide)⟩

/-- C7 counterexample: with configured bearing 450°, the straight-path
waypoint's heading is `450 % 360 = 90`, not the configured bearing 450 —
the claim "heading equal to the configured bearing" fails as stated. -/
theorem gen_straight_heading_cex :
    ((gen_straight cfgStraightBearing450).getD 0 (0, 0, 0)).2.2 ≠
      cfgStraightBearing450.bearing_deg := by
  have h : ((gen_straight cfgStraightBearing450).getD 0 (0, 0, 0)).2.2 =
      fmod cfgStraightBearing450.bearing_deg 360 := by
    unfold gen_straight
    rw [getD_range_map _ _ _ _ (by decide)]
    rfl
  rw [h]
  have hb : cfgStraightBearing450.bearing_deg = 450 := rfl
  rw [hb, fmod_450_360]
  norm_num

end DroneFlight
